import Mathlib

/-!
Shallow embedding of the financial core of `app.py` (pontaje-app):
decimal parsing (`d`), money and percent formatting (`money`, `pct`),
job totals (`compute_job_totals`), invoice numbering
(`next_invoice_number`, `make_inv_no`), invoice line generation
(`invoice_lines`), invoice viewing (`invoice_view_totals`) and the
validated mutation handlers (`add_time`, `add_exp`, `add_pay`).

Python `Decimal` values are modelled as exact rationals (`Rat`).  The
numeric-string fragment modelled is the ASCII one: underscore grouping
between digits is part of the model, while the constructor's special
values (NaN, sNaN, Infinity) — non-finite, with no rational
counterpart — and non-ASCII decimal digits lie outside it;
`isSpecialDecTok` recognises the special tokens so that statements can
be scoped to the modelled fragment.  Python strings are modelled as
`String` and `List Char`; `str.strip()` is modelled by `pyStrip` over
the whitespace set of `str.isspace` (`pyWhitespace`).  `date.today()`
values are modelled by passing the year (or the ISO date string) as an
explicit parameter.  All functions are total, matching the code, which
catches every parse error itself.
-/

/-- Digit list to natural number, base 10. -/
def digitsToNat (l : List Char) : Nat :=
  l.foldl (fun a c => a * 10 + (c.toNat - 48)) 0

/-- Split a character list at the first character satisfying `p`;
the second component is `none` when no character matches. -/
def splitAtFirst (p : Char → Bool) : List Char → List Char × Option (List Char)
  | [] => ([], none)
  | c :: r =>
    if p c then ([], some r)
    else
      let q := splitAtFirst p r
      (c :: q.1, q.2)

/-- Exponent part of the `Decimal` grammar: an optional sign followed by
at least one digit. -/
def parseExpPart (l : List Char) : Option Int :=
  match l with
  | '+' :: r => if r ≠ [] ∧ r.all (fun c => c.isDigit) then some ((digitsToNat r : Nat) : Int) else none
  | '-' :: r => if r ≠ [] ∧ r.all (fun c => c.isDigit) then some (-((digitsToNat r : Nat) : Int)) else none
  | r => if r ≠ [] ∧ r.all (fun c => c.isDigit) then some ((digitsToNat r : Nat) : Int) else none

/-- Ten to an integer power, as a rational. -/
def pow10 (k : Int) : Rat :=
  if 0 ≤ k then (10 : Rat) ^ k.toNat else 1 / (10 : Rat) ^ (-k).toNat

/-- Python's underscore rule for numeric strings (PEP 515, applied by
the `Decimal` constructor): every `_` must be immediately preceded and
immediately followed by a digit.  `prev` is the character before the
current position. -/
def undOkAux : Option Char → List Char → Bool
  | _, [] => true
  | prev, c :: rest =>
    if c = '_' then
      (match prev with
       | some p => p.isDigit
       | none => false)
      && (match rest with
          | n :: _ => n.isDigit
          | [] => false)
      && undOkAux (some c) rest
    else undOkAux (some c) rest

/-- The numeric core of Python's `Decimal(str)` constructor, after
underscore removal:
`sign? (digits . digits? | . digits | digits) ([eE] sign? digits)?`. -/
def parseDecCore? (l : List Char) : Option Rat :=
  let s : Int × List Char :=
    match l with
    | '+' :: r => (1, r)
    | '-' :: r => (-1, r)
    | r => (1, r)
  let m := splitAtFirst (fun c => c == 'e' || c == 'E') s.2
  let e? : Option Int :=
    match m.2 with
    | none => some 0
    | some ep => parseExpPart ep
  match e? with
  | none => none
  | some e =>
    let ip := (splitAtFirst (fun c => c == '.') m.1).1
    let fp : List Char :=
      match (splitAtFirst (fun c => c == '.') m.1).2 with
      | none => []
      | some f => f
    if ip.all (fun c => c.isDigit) ∧ fp.all (fun c => c.isDigit) ∧ (ip ≠ [] ∨ fp ≠ []) then
      some ((s.1 : Rat) * ((digitsToNat (ip ++ fp) : Nat) : Rat) * pow10 (e - (fp.length : Int)))
    else none

/-- The finite-number fragment of Python's `Decimal(str)` constructor
over ASCII input: underscore grouping between digits is accepted and
removed, then the numeric grammar is applied.  `none` models
`InvalidOperation` on such strings.  The constructor's special values
(NaN, sNaN, Infinity — recognised by `isSpecialDecTok`) are non-finite
and lie outside the rational domain of this model, as do non-ASCII
decimal digits. -/
def parseDec? (l : List Char) : Option Rat :=
  if undOkAux none l then parseDecCore? (l.filter (fun c => c ≠ '_')) else none

/-- The whitespace set of Python's `str.isspace` (and so of the no-argument
`str.strip`): ASCII control whitespace, the separator controls
U+001C-U+001F, and the Unicode space characters. -/
def pyWhitespace (c : Char) : Bool :=
  decide ((9 ≤ c.toNat ∧ c.toNat ≤ 13) ∨ (28 ≤ c.toNat ∧ c.toNat ≤ 31) ∨ c.toNat = 32
    ∨ c.toNat = 133 ∨ c.toNat = 160 ∨ c.toNat = 5760
    ∨ (8192 ≤ c.toNat ∧ c.toNat ≤ 8202) ∨ c.toNat = 8232 ∨ c.toNat = 8233
    ∨ c.toNat = 8239 ∨ c.toNat = 8287 ∨ c.toNat = 12288)

/-- Python `str.strip()`: drop whitespace from both ends. -/
def pyStrip (l : List Char) : List Char :=
  ((l.dropWhile (fun c => pyWhitespace c)).reverse.dropWhile (fun c => pyWhitespace c)).reverse

/-- `String`-level `str.strip()`. -/
def pyStripStr (s : String) : String :=
  String.mk (pyStrip s.toList)

/-- Python `s.replace(" ", "")`: remove every space character. -/
def removeSpaces (l : List Char) : List Char :=
  l.filter (fun c => c ≠ ' ')

/-- Separator normalisation of `d` (app.py lines 42-45): with both `,`
and `.` present, drop `.` and turn `,` into `.`; otherwise just turn
`,` into `.`. -/
def normalizeSeps (l : List Char) : List Char :=
  if l.contains ',' && l.contains '.' then
    (l.filter (fun c => c ≠ '.')).map (fun c => if c = ',' then '.' else c)
  else
    l.map (fun c => if c = ',' then '.' else c)

/-- Python `str(x or "0")` for a `None`-or-string input: `None` and the
empty string become `"0"`. -/
def pyInput (x : Option String) : String :=
  match x with
  | none => "0"
  | some s => if s = "" then "0" else s

/-- The decimal parser `d` (app.py lines 38-49). -/
def d (x : Option String) : Rat :=
  match parseDec? (normalizeSeps (removeSpaces (pyStrip (pyInput x).toList))) with
  | some v => v
  | none => 0

/-- Job row: the fields of `jobs` used by the money logic. -/
structure Job where
  hourly_rate : Rat
  vat_rate : Rat
  deriving DecidableEq

/-- Timesheet row (`timesheets`). -/
structure Timesheet where
  work_date : String
  worker : Option String
  task : Option String
  hours : Rat
  rate_override : Option Rat
  deriving DecidableEq

/-- Expense row (`expenses`). -/
structure Expense where
  exp_date : String
  category : Option String
  description : String
  qty : Rat
  unit : String
  unit_cost : Rat
  markup_percent : Rat
  billable : Bool
  deriving DecidableEq

/-- Payment row (`payments`). -/
structure Payment where
  pay_date : String
  amount : Rat
  method : Option String
  notes : Option String
  deriving DecidableEq

/-- The dictionary returned by `compute_job_totals`. -/
structure JobTotals where
  labor_hours : Rat
  labor_total : Rat
  exp_billable_total : Rat
  subtotal : Rat
  vat : Rat
  total : Rat
  paid : Rat
  receivable : Rat
  deriving DecidableEq

/-- The effective rate of a timesheet entry: its `rate_override` when
present, else the job's `hourly_rate` (app.py line 218). -/
def effectiveRate (job : Job) (t : Timesheet) : Rat :=
  match t.rate_override with
  | some r => r
  | none => job.hourly_rate

/-- `compute_job_totals` (app.py lines 213-244).  The Python code
re-parses every stored `Decimal` through `d`, which is the identity on
finite decimal values, so the model reads the rational fields
directly.  The three database queries are modelled by passing the
job's timesheet, expense and payment rows as lists. -/
def compute_job_totals (job : Job) (ts : List Timesheet) (ex : List Expense)
    (pays : List Payment) : JobTotals :=
  let labor_hours := ts.foldl (fun acc t => acc + t.hours) 0
  let labor_total := ts.foldl (fun acc t => acc + t.hours * effectiveRate job t) 0
  let exp_billable_total :=
    ex.foldl (fun acc e =>
      if e.billable then acc + e.qty * (e.unit_cost * (1 + e.markup_percent / 100)) else acc) 0
  let subtotal := labor_total + exp_billable_total
  let vat := subtotal * job.vat_rate
  let total := subtotal + vat
  let paid := pays.foldl (fun acc p => acc + p.amount) 0
  { labor_hours := labor_hours
  , labor_total := labor_total
  , exp_billable_total := exp_billable_total
  , subtotal := subtotal
  , vat := vat
  , total := total
  , paid := paid
  , receivable := total - paid }

/-- Invoice row (`invoices`): the fields used by the numbering logic. -/
structure Invoice where
  series : String
  number : Int
  inv_no : String
  deriving DecidableEq

/-- `int(cp.invoice_start_no or 1)`: a missing or zero configured
starting number falls back to 1 (Python truthiness of `0`). -/
def effectiveStartNo (start : Option Int) : Int :=
  match start with
  | none => 1
  | some s => if s = 0 then 1 else s

/-- Boolean list-prefix test (the SQL `LIKE "<p>%"` filter). -/
def isPrefixList : List Char → List Char → Bool
  | [], _ => true
  | _ :: _, [] => false
  | a :: as, b :: bs => a == b && isPrefixList as bs

/-- The filter of `next_invoice_number`: same series and composed
number starting with `"<series>-<year>-"` (app.py lines 250-251). -/
def invMatches (series : String) (year : Nat) (i : Invoice) : Bool :=
  decide (i.series = series)
    && isPrefixList (series ++ "-" ++ toString year ++ "-").toList i.inv_no.toList

/-- Numbers of the invoices that pass the series/year filter. -/
def matchingNumbers (invs : List Invoice) (series : String) (year : Nat) : List Int :=
  (invs.filter (fun i => invMatches series year i)).map (fun i => i.number)

/-- Maximum of an integer list (the `ORDER BY number DESC ... first()`
lookup), `none` on the empty list. -/
def listMax? : List Int → Option Int
  | [] => none
  | a :: as => some (as.foldl max a)

/-- `next_invoice_number` (app.py lines 247-258), with the current year
and the company profile's configured starting number as parameters. -/
def next_invoice_number (invs : List Invoice) (series : String) (year : Nat)
    (start : Option Int) : Int :=
  match listMax? (matchingNumbers invs series year) with
  | none => effectiveStartNo start
  | some m => m + 1

/-- Left-pad a string with `'0'` up to width `w`. -/
def padZeros (w : Nat) (s : String) : String :=
  if s.length < w then String.mk (List.replicate (w - s.length) '0') ++ s else s

/-- Python's `f"{number:04d}"`: minimum width 4 including the sign. -/
def padNum4 (n : Int) : String :=
  if n < 0 then "-" ++ padZeros 3 (toString n.natAbs) else padZeros 4 (toString n.toNat)

/-- `make_inv_no` (app.py lines 261-263). -/
def make_inv_no (series : String) (year : Nat) (number : Int) : String :=
  series ++ "-" ++ toString year ++ "-" ++ padNum4 number

/-- Invoice line row (`invoice_lines`). -/
structure InvoiceLine where
  line_type : String
  description : String
  qty : Rat
  unit : String
  unit_price : Rat
  line_total : Rat
  deriving DecidableEq

/-- The `EXPENSE` line built for a billable expense
(app.py lines 1410-1422). -/
def expenseLine (e : Expense) : InvoiceLine :=
  let unit_price := e.unit_cost * (1 + e.markup_percent / 100)
  { line_type := "EXPENSE"
  , description := e.description
  , qty := e.qty
  , unit := e.unit
  , unit_price := unit_price
  , line_total := e.qty * unit_price }

/-- The invoice lines persisted by `invoice_generate`
(app.py lines 1387-1422): one `LABOR` line when `labor_total > 0`,
then one `EXPENSE` line per billable expense, in table order. -/
def invoice_lines (totals : JobTotals) (exps : List Expense) : List InvoiceLine :=
  (if 0 < totals.labor_total then
    let hours := if 0 < totals.labor_hours then totals.labor_hours else 0
    let unit_price := if 0 < hours then totals.labor_total / hours else totals.labor_total
    [{ line_type := "LABOR"
     , description := "Manoperă (ore lucrate)"
     , qty := hours
     , unit := "ore"
     , unit_price := unit_price
     , line_total := totals.labor_total }]
  else [])
  ++ exps.filterMap (fun e => if e.billable then some (expenseLine e) else none)

/-- The totals block recomputed by `invoice_view`
(app.py lines 1437-1442). -/
structure ViewTotals where
  subtotal : Rat
  vat : Rat
  total : Rat
  deriving DecidableEq

/-- `invoice_view`'s recomputation: subtotal from the persisted lines,
VAT from the job's current `vat_rate` and the company profile's
current `vat_payer` flag. -/
def invoice_view_totals (lines : List InvoiceLine) (job_vat_rate : Rat)
    (vat_payer : Bool) : ViewTotals :=
  let subtotal := lines.foldl (fun acc l => acc + l.line_total) 0
  let vr := if vat_payer then job_vat_rate else 0
  { subtotal := subtotal, vat := subtotal * vr, total := subtotal + subtotal * vr }

/-- `company_save`'s update of the `vat_payer` flag
(app.py line 652): `request.form.get("vat_payer", "1") == "1"`. -/
def company_save_vat_payer (form_val : Option String) : Bool :=
  decide ((form_val.getD ("1")) = ("1" : String))

/-- `.strip() or None` idiom: a blank string becomes `None`. -/
def optStr (s : String) : Option String :=
  if s = "" then none else some s

/-- The persisted tables touched by the three mutation handlers. -/
structure DBState where
  timesheets : List Timesheet
  expenses : List Expense
  payments : List Payment
  deriving DecidableEq

/-- Form input of `add_time`; `none` models an absent form key, whose
`request.form.get` default is applied by the handler. -/
structure TimeForm where
  hours : Option String
  rate_override : Option String
  work_date : Option String
  worker : Option String
  task : Option String
  deriving DecidableEq

/-- The timesheet row built by `add_time` (app.py lines 1213-1221). -/
def timesheetOfForm (today : String) (f : TimeForm) : Timesheet :=
  { work_date := pyStripStr (f.work_date.getD today)
  , worker := optStr (pyStripStr (f.worker.getD ("")))
  , task := optStr (pyStripStr (f.task.getD ("")))
  , hours := d (some (f.hours.getD ("0")))
  , rate_override :=
      if pyStripStr (f.rate_override.getD ("")) = "" then none
      else some (d (some (pyStripStr (f.rate_override.getD (""))))) }

/-- `add_time` (app.py lines 1205-1225): reject non-positive parsed
hours before persisting, else append the new row. -/
def add_time (today : String) (f : TimeForm) (st : DBState) : DBState × String :=
  if d (some (f.hours.getD ("0"))) ≤ 0 then
    (st, "Ore invalide. Exemplu: 5,5")
  else
    ({ st with timesheets := st.timesheets ++ [timesheetOfForm today f] }, "Pontaj adăugat.")

/-- Form input of `add_exp`. -/
structure ExpForm where
  exp_date : Option String
  category : Option String
  description : Option String
  qty : Option String
  unit : Option String
  unit_cost : Option String
  markup_percent : Option String
  billable : Option String
  deriving DecidableEq

/-- The expense row built by `add_exp` (app.py lines 1247-1257). -/
def expenseOfForm (today : String) (f : ExpForm) : Expense :=
  { exp_date := pyStripStr (f.exp_date.getD today)
  , category := optStr (pyStripStr (f.category.getD ("MATERIAL")))
  , description := pyStripStr (f.description.getD (""))
  , qty := d (some (f.qty.getD ("1")))
  , unit :=
      (if pyStripStr (f.unit.getD ("buc")) = "" then "buc"
       else pyStripStr (f.unit.getD ("buc")))
  , unit_cost := d (some (f.unit_cost.getD ("0")))
  , markup_percent := d (some (f.markup_percent.getD ("0")))
  , billable := decide ((f.billable.getD ("1")) = ("1" : String)) }

/-- `add_exp` (app.py lines 1237-1261): reject non-positive parsed
quantity or negative parsed unit cost before persisting. -/
def add_exp (today : String) (f : ExpForm) (st : DBState) : DBState × String :=
  if d (some (f.qty.getD ("1"))) ≤ 0 ∨ d (some (f.unit_cost.getD ("0"))) < 0 then
    (st, "Cantitate/cost invalid.")
  else
    ({ st with expenses := st.expenses ++ [expenseOfForm today f] }, "Material/cheltuială adăugată.")

/-- Form input of `add_pay`. -/
structure PayForm where
  pay_date : Option String
  amount : Option String
  method : Option String
  notes : Option String
  deriving DecidableEq

/-- The payment row built by `add_pay` (app.py lines 1282-1288). -/
def paymentOfForm (today : String) (f : PayForm) : Payment :=
  { pay_date := pyStripStr (f.pay_date.getD today)
  , amount := d (some (f.amount.getD ("0")))
  , method := optStr (pyStripStr (f.method.getD ("")))
  , notes := optStr (pyStripStr (f.notes.getD (""))) }

/-- `add_pay` (app.py lines 1273-1292): reject a non-positive parsed
amount before persisting. -/
def add_pay (today : String) (f : PayForm) (st : DBState) : DBState × String :=
  if d (some (f.amount.getD ("0"))) ≤ 0 then
    (st, "Suma introdusă nu este validă. Exemplu: 100,50")
  else
    ({ st with payments := st.payments ++ [paymentOfForm today f] }, "Plată adăugată.")


/-- A left fold accumulating `+ f x` is the accumulator plus the sum of
the mapped list. -/
theorem foldl_add_eq {α : Type} (f : α → Rat) (l : List α) :
    ∀ a : Rat, l.foldl (fun acc x => acc + f x) a = a + (l.map f).sum := by
  induction l with
  | nil => intro a; simp
  | cons x xs ih =>
    intro a
    simp only [List.foldl_cons, List.map_cons, List.sum_cons]
    rw [ih (a + f x)]
    ring

/-- A guarded left fold is the accumulator plus the sum over the
filtered list. -/
theorem foldl_add_if_eq {α : Type} (p : α → Bool) (f : α → Rat) (l : List α) :
    ∀ a : Rat,
      l.foldl (fun acc x => if p x then acc + f x else acc) a
        = a + ((l.filter p).map f).sum := by
  induction l with
  | nil => intro a; simp
  | cons x xs ih =>
    intro a
    cases hp : p x
    · simp only [List.foldl_cons, hp, if_false, List.filter_cons, Bool.false_eq_true, ite_false]
      rw [ih a]
    · simp only [List.foldl_cons, hp, if_true, List.filter_cons, List.map_cons, List.sum_cons,
        ite_true]
      rw [ih (a + f x)]
      ring

/-- `filterMap` with a guard producing `some (f x)` is `filter` then
`map`. -/
theorem filterMap_if_eq {α β : Type} (p : α → Bool) (f : α → β) (l : List α) :
    l.filterMap (fun x => if p x then some (f x) else none) = (l.filter p).map f := by
  induction l with
  | nil => rfl
  | cons x xs ih =>
    cases hp : p x <;> simp [List.filterMap_cons, List.filter_cons, hp, ih]

/-- `labor_hours` is the sum of the timesheet hours. -/
theorem compute_labor_hours (job : Job) (ts : List Timesheet) (ex : List Expense)
    (pays : List Payment) :
    (compute_job_totals job ts ex pays).labor_hours = (ts.map (fun t => t.hours)).sum := by
  show ts.foldl (fun acc t => acc + t.hours) 0 = _
  rw [foldl_add_eq (fun t => t.hours) ts 0, zero_add]

/-- `labor_total` is the sum of hours times effective rate. -/
theorem compute_labor_total (job : Job) (ts : List Timesheet) (ex : List Expense)
    (pays : List Payment) :
    (compute_job_totals job ts ex pays).labor_total
      = (ts.map (fun t => t.hours * effectiveRate job t)).sum := by
  show ts.foldl (fun acc t => acc + t.hours * effectiveRate job t) 0 = _
  rw [foldl_add_eq (fun t => t.hours * effectiveRate job t) ts 0, zero_add]

/-- `exp_billable_total` is the sum over the billable expenses. -/
theorem compute_ebt (job : Job) (ts : List Timesheet) (ex : List Expense)
    (pays : List Payment) :
    (compute_job_totals job ts ex pays).exp_billable_total
      = ((ex.filter (fun e => e.billable)).map
          (fun e => e.qty * (e.unit_cost * (1 + e.markup_percent / 100)))).sum := by
  show ex.foldl
      (fun acc e => if e.billable then acc + e.qty * (e.unit_cost * (1 + e.markup_percent / 100))
        else acc) 0 = _
  rw [foldl_add_if_eq (fun e => e.billable)
    (fun e => e.qty * (e.unit_cost * (1 + e.markup_percent / 100))) ex 0, zero_add]

/-- `paid` is the sum of the payment amounts. -/
theorem compute_paid (job : Job) (ts : List Timesheet) (ex : List Expense)
    (pays : List Payment) :
    (compute_job_totals job ts ex pays).paid = (pays.map (fun p => p.amount)).sum := by
  show pays.foldl (fun acc p => acc + p.amount) 0 = _
  rw [foldl_add_eq (fun p => p.amount) pays 0, zero_add]

/-- `subtotal` is `labor_total + exp_billable_total`. -/
theorem compute_subtotal (job : Job) (ts : List Timesheet) (ex : List Expense)
    (pays : List Payment) :
    (compute_job_totals job ts ex pays).subtotal
      = (compute_job_totals job ts ex pays).labor_total
        + (compute_job_totals job ts ex pays).exp_billable_total := rfl

/-- Sum of the generated invoice-line totals: the labor total (when
positive) plus the billable-expense totals. -/
theorem invoice_lines_sum (T : JobTotals) (exps : List Expense) :
    ((invoice_lines T exps).map (fun l => l.line_total)).sum
      = (if 0 < T.labor_total then T.labor_total else 0)
        + ((exps.filter (fun e => e.billable)).map
            (fun e => e.qty * (e.unit_cost * (1 + e.markup_percent / 100)))).sum := by
  unfold invoice_lines
  rw [List.map_append, List.sum_append, filterMap_if_eq, List.map_map]
  have hc : (fun l => l.line_total) ∘ expenseLine
      = fun e : Expense => e.qty * (e.unit_cost * (1 + e.markup_percent / 100)) := rfl
  rw [hc]
  congr 1
  by_cases h : 0 < T.labor_total
  · simp [h]
  · simp [h]

/-- Mapped expense lines never carry the `LABOR` type. -/
theorem map_expenseLine_no_labor (l : List Expense) :
    (l.map expenseLine).filter (fun x => decide (x.line_type = "LABOR")) = [] := by
  induction l with
  | nil => rfl
  | cons e es ih => simp [List.map_cons, List.filter_cons, expenseLine, ih]

/-- The expense lines never carry the `LABOR` type. -/
theorem expense_lines_no_labor (exps : List Expense) :
    (exps.filterMap (fun e => if e.billable then some (expenseLine e) else none)).filter
        (fun l => decide (l.line_type = "LABOR")) = [] := by
  rw [filterMap_if_eq]
  exact map_expenseLine_no_labor (exps.filter (fun e => e.billable))

/-- Facts about `foldl max`: it bounds the accumulator and every list
element, and is attained by one of them. -/
theorem foldl_max_facts (as : List Int) :
    ∀ a : Int, a ≤ as.foldl max a
      ∧ (as.foldl max a = a ∨ as.foldl max a ∈ as)
      ∧ ∀ x ∈ as, x ≤ as.foldl max a := by
  induction as with
  | nil =>
    intro a
    exact ⟨le_refl a, Or.inl rfl, by simp⟩
  | cons b bs ih =>
    intro a
    simp only [List.foldl_cons]
    obtain ⟨h1, h2, h3⟩ := ih (max a b)
    refine ⟨le_trans (le_max_left a b) h1, ?_, ?_⟩
    · rcases h2 with he | hm
      · rcases max_choice a b with hab | hab
        · exact Or.inl (by rw [he, hab])
        · exact Or.inr (by rw [he, hab]; exact List.mem_cons_self b bs)
      · exact Or.inr (List.mem_cons_of_mem b hm)
    · intro x hx
      rcases List.mem_cons.mp hx with rfl | hx2
      · exact le_trans (le_max_right a x) h1
      · exact h3 x hx2

/-- When `listMax?` returns a value, it is a member and an upper
bound. -/
theorem listMax?_facts (l : List Int) (m : Int) (h : listMax? l = some m) :
    m ∈ l ∧ ∀ x ∈ l, x ≤ m := by
  cases l with
  | nil => simp [listMax?] at h
  | cons a as =>
    have hm : as.foldl max a = m := by
      simp [listMax?] at h
      exact h
    obtain ⟨h1, h2, h3⟩ := foldl_max_facts as a
    subst hm
    constructor
    · rcases h2 with he | hmem
      · rw [he]; exact List.mem_cons_self a as
      · exact List.mem_cons_of_mem a hmem
    · intro x hx
      rcases List.mem_cons.mp hx with rfl | hx2
      · exact h1
      · exact h3 x hx2

/-- `listMax?` of a non-empty list returns a value. -/
theorem listMax?_isSome (l : List Int) (hl : l ≠ []) : ∃ m, listMax? l = some m := by
  cases l with
  | nil => exact absurd rfl hl
  | cons a as => exact ⟨as.foldl max a, rfl⟩

/-- `filter` commutes with `reverse`. -/
theorem filter_reverse_eq (p : Char → Bool) (l : List Char) :
    l.reverse.filter p = (l.filter p).reverse := by
  induction l with
  | nil => rfl
  | cons c cs ih =>
    cases hp : p c <;>
      simp [List.reverse_cons, List.filter_append, List.filter_cons, hp, ih]

/-- Dropping leading whitespace commutes with removing the spaces,
because a space is itself whitespace. -/
theorem dropWhile_ws_filter (l : List Char) :
    (l.filter (fun c => c ≠ ' ')).dropWhile (fun c => pyWhitespace c)
      = (l.dropWhile (fun c => pyWhitespace c)).filter (fun c => c ≠ ' ') := by
  induction l with
  | nil => rfl
  | cons c cs ih =>
    by_cases hsp : c = ' '
    · subst hsp
      have hws : pyWhitespace ' ' = true := by decide
      simpa [List.filter_cons, List.dropWhile_cons, hws] using ih
    · by_cases hws : pyWhitespace c = true
      · simpa [List.filter_cons, List.dropWhile_cons, hsp, hws] using ih
      · simp [List.filter_cons, List.dropWhile_cons, hsp, hws]

/-- `pyStrip` commutes with `removeSpaces`. -/
theorem pyStrip_removeSpaces (l : List Char) :
    pyStrip (removeSpaces l) = removeSpaces (pyStrip l) := by
  unfold pyStrip removeSpaces
  rw [dropWhile_ws_filter, ← filter_reverse_eq, dropWhile_ws_filter, ← filter_reverse_eq]

/-- `removeSpaces` is idempotent. -/
theorem removeSpaces_idem (l : List Char) :
    removeSpaces (removeSpaces l) = removeSpaces l := by
  unfold removeSpaces
  induction l with
  | nil => rfl
  | cons c cs ih =>
    by_cases h : c = ' ' <;> simp [List.filter_cons, h, ih]

/-- On a non-empty input string, `d` is the parse of the normalised,
space-free, stripped character list. -/
theorem d_pipeline (s : String) (h : s ≠ "") :
    d (some s)
      = match parseDec? (normalizeSeps (removeSpaces (pyStrip s.toList))) with
        | some v => v
        | none => 0 := by
  have hin : pyInput (some s) = s := by
    simp only [pyInput]
    rw [if_neg h]
  unfold d
  rw [hin]

/-- Claim C1: for every job, `compute_job_totals` returns
`labor_hours` = the exact decimal sum of the job's timesheet hours;
`labor_total` = the sum of `hours × effective_rate` with
`effective_rate` the entry's `rate_override` if present, else the
job's `hourly_rate` (`effectiveRate`); `exp_billable_total` = the sum
over billable expenses of `qty × unit_cost × (1 + markup_percent/100)`;
`subtotal = labor_total + exp_billable_total`;
`vat = subtotal × vat_rate`; `total = subtotal + vat`;
`paid` = the sum of the payment amounts; and
`receivable = total − paid` with no clamping. -/
theorem C1_compute_job_totals (job : Job) (ts : List Timesheet) (ex : List Expense)
    (pays : List Payment) :
    (compute_job_totals job ts ex pays).labor_hours = (ts.map (fun t => t.hours)).sum
  ∧ (compute_job_totals job ts ex pays).labor_total
      = (ts.map (fun t => t.hours * effectiveRate job t)).sum
  ∧ (compute_job_totals job ts ex pays).exp_billable_total
      = ((ex.filter (fun e => e.billable)).map
          (fun e => e.qty * e.unit_cost * (1 + e.markup_percent / 100))).sum
  ∧ (compute_job_totals job ts ex pays).subtotal
      = (compute_job_totals job ts ex pays).labor_total
        + (compute_job_totals job ts ex pays).exp_billable_total
  ∧ (compute_job_totals job ts ex pays).vat
      = (compute_job_totals job ts ex pays).subtotal * job.vat_rate
  ∧ (compute_job_totals job ts ex pays).total
      = (compute_job_totals job ts ex pays).subtotal + (compute_job_totals job ts ex pays).vat
  ∧ (compute_job_totals job ts ex pays).paid = (pays.map (fun p => p.amount)).sum
  ∧ (compute_job_totals job ts ex pays).receivable
      = (compute_job_totals job ts ex pays).total - (compute_job_totals job ts ex pays).paid := by
  refine ⟨compute_labor_hours job ts ex pays, compute_labor_total job ts ex pays, ?_,
    rfl, rfl, rfl, compute_paid job ts ex pays, rfl⟩
  rw [compute_ebt job ts ex pays]
  have hfg : (fun e : Expense => e.qty * (e.unit_cost * (1 + e.markup_percent / 100)))
      = fun e : Expense => e.qty * e.unit_cost * (1 + e.markup_percent / 100) := by
    funext e
    ring
  rw [hfg]

/-- Claim C10: `d` removes every space character occurring anywhere in
the input (not only leading/trailing whitespace) before separator
handling, so `"1 234,56"` parses to 1234.56 rather than to zero. -/
theorem C10_space_removal :
    (∀ s : String, d (some s) = d (some (String.mk (removeSpaces s.toList))))
      ∧ d (some ("1 234,56")) = 1234.56 ∧ d (some ("1 234,56")) ≠ 0 := by
  refine ⟨?_, by with_unfolding_all rfl, by with_unfolding_all exact of_decide_eq_true rfl⟩
  intro s
  by_cases h1 : s = ""
  · subst h1
    with_unfolding_all rfl
  · by_cases h2 : String.mk (removeSpaces s.toList) = ""
    · have hnil : removeSpaces s.toList = [] := congrArg String.data h2
      rw [h2]
      have hz : d (some ("")) = 0 := by with_unfolding_all rfl
      rw [hz, d_pipeline s h1, ← pyStrip_removeSpaces, hnil]
      with_unfolding_all rfl
    · rw [d_pipeline s h1, d_pipeline _ h2]
      have ht : (String.mk (removeSpaces s.toList)).toList = removeSpaces s.toList := rfl
      rw [ht, pyStrip_removeSpaces, removeSpaces_idem]

/-- Claim C2, counterexample: with a configured starting number of 0
(enterable through the company form) and no matching invoice,
`next_invoice_number` returns 1, not the configured starting number,
because the code evaluates `int(cp.invoice_start_no or 1)` and 0 is
falsy in Python. -/
theorem C2_counterexample :
    next_invoice_number [] "AA" 2026 (some 0) = 1
      ∧ next_invoice_number [] "AA" 2026 (some 0) ≠ 0 :=
  ⟨by with_unfolding_all rfl, by decide⟩

/-- Claim C2 (amended): for every series, `next_invoice_number`
returns the configured starting number — where a missing or zero
configured value falls back to 1 (`effectiveStartNo`) — when no
existing invoice matches the series/year filter, and otherwise
returns 1 plus the highest existing invoice number among the matching
invoices; `make_inv_no` composes
`{series}-{year}-{number zero-padded to 4 digits}`, so numbering
restarts per series per calendar year and the persisted string has
exactly the form `SERIES-YYYY-NNNN`, e.g. `AA-2026-0001`. -/
theorem C2_invoice_numbering (invs : List Invoice) (series : String) (year : Nat)
    (start : Option Int) :
    ((∀ i ∈ invs, invMatches series year i = false)
        → next_invoice_number invs series year start = effectiveStartNo start)
      ∧ (∀ m : Int, m ∈ matchingNumbers invs series year
          → (∀ x ∈ matchingNumbers invs series year, x ≤ m)
          → next_invoice_number invs series year start = m + 1)
      ∧ (∀ n : Int, 0 ≤ n
          → make_inv_no series year n
              = series ++ "-" ++ toString year ++ "-" ++ padZeros 4 (toString n.toNat))
      ∧ make_inv_no ("AA") 2026 1 = "AA-2026-0001" := by
  refine ⟨?_, ?_, ?_, by decide⟩
  · intro hno
    have hfil : invs.filter (fun i => invMatches series year i) = [] :=
      List.filter_eq_nil_iff.mpr (fun i hi => by simp [hno i hi])
    have hnil : matchingNumbers invs series year = [] := by
      unfold matchingNumbers
      rw [hfil]
      rfl
    unfold next_invoice_number
    rw [hnil]
    rfl
  · intro m hmem hub
    have hne : matchingNumbers invs series year ≠ [] := by
      intro hc
      rw [hc] at hmem
      cases hmem
    obtain ⟨m2, hm2⟩ := listMax?_isSome (matchingNumbers invs series year) hne
    obtain ⟨hmem2, hub2⟩ := listMax?_facts _ m2 hm2
    have heq : m2 = m := le_antisymm (hub m2 hmem2) (hub2 m hmem)
    unfold next_invoice_number
    rw [hm2, heq]
  · intro n hn
    unfold make_inv_no padNum4
    rw [if_neg (not_lt.mpr hn)]

/-- Claim C2, witness: the no-match case returns the effective start,
a matching invoice numbered 3 yields 4, and the composition rule holds
at `n = 1`. -/
theorem C2_witness :
    next_invoice_number [] "AA" 2026 (some 7) = effectiveStartNo (some 7)
      ∧ next_invoice_number [⟨"AA", 3, "AA-2026-0003"⟩] "AA" 2026 (some 5) = 3 + 1
      ∧ make_inv_no ("AA") 2026 1
          = "AA" ++ "-" ++ toString 2026 ++ "-" ++ padZeros 4 (toString (1 : Int).toNat) :=
  ⟨(C2_invoice_numbering [] "AA" 2026 (some 7)).1 (by decide),
   (C2_invoice_numbering [⟨"AA", 3, "AA-2026-0003"⟩] "AA" 2026 (some 5)).2.1 3
     (by decide) (by decide),
   (C2_invoice_numbering [] "AA" 2026 (some 7)).2.2.1 1 (by decide)⟩

/-- Claim C3, counterexample: the emitted `LABOR` line's unit is the
literal string `"ore"` (Romanian), not `"hours"` as the claim states,
shown on a job with 2 hours at rate 5. -/
theorem C3_counterexample :
    (invoice_lines (compute_job_totals ⟨5, 19/100⟩ [⟨"2026-01-10", none, none, 2, none⟩] [] [])
        []).map (fun l => l.unit) = ["ore"]
      ∧ (invoice_lines (compute_job_totals ⟨5, 19/100⟩ [⟨"2026-01-10", none, none, 2, none⟩] [] [])
        []).map (fun l => l.unit) ≠ [("hours" : String)] :=
  ⟨by with_unfolding_all rfl, by with_unfolding_all exact of_decide_eq_true rfl⟩

/-- Claim C3 (amended): at invoice generation (given a nonnegative
total of labor hours, which validation guarantees), exactly one
`LABOR` line is emitted when `labor_total > 0`, with quantity = total
labor hours (0 in the degenerate zero-hours case), unit = `"ore"`
(the code's Romanian label for hours, where the claim said
`"hours"`), unit price = `labor_total / hours` when hours > 0 and
`labor_total` itself otherwise, and line total = `labor_total`; one
`EXPENSE` line per billable expense with quantity = qty, unit = the
expense unit, unit price = `unit_cost × (1 + markup_percent/100)`,
line total = `qty × unit_price`; and no line for non-billable
expenses or when the labor total is not positive. -/
theorem C3_invoice_lines (T : JobTotals) (exps : List Expense) (h : 0 ≤ T.labor_hours) :
    invoice_lines T exps =
      (if 0 < T.labor_total then
        [{ line_type := "LABOR", description := "Manoperă (ore lucrate)", qty := T.labor_hours
         , unit := "ore"
         , unit_price := if 0 < T.labor_hours then T.labor_total / T.labor_hours else T.labor_total
         , line_total := T.labor_total }]
      else [])
      ++ (exps.filter (fun e => e.billable)).map
          (fun e =>
            { line_type := "EXPENSE", description := e.description, qty := e.qty, unit := e.unit
            , unit_price := e.unit_cost * (1 + e.markup_percent / 100)
            , line_total := e.qty * (e.unit_cost * (1 + e.markup_percent / 100)) }) := by
  unfold invoice_lines
  rw [filterMap_if_eq]
  congr 1
  by_cases hl : 0 < T.labor_hours
  · simp only [hl, if_true]
  · have h0 : T.labor_hours = 0 := le_antisymm (not_lt.mp hl) h
    rw [h0]
    simp [lt_irrefl]

/-- Claim C3, witness: on a job with 2 hours at rate 100 and one
billable expense (qty 2, unit cost 10, markup 20%), the generated
line totals are 200 and 24. -/
theorem C3_witness :
    ((invoice_lines (compute_job_totals ⟨100, 19/100⟩ [⟨"2026-01-10", none, none, 2, none⟩]
        [⟨"2026-01-10", none, "materiale", 2, "buc", 10, 20, true⟩] [])
        [⟨"2026-01-10", none, "materiale", 2, "buc", 10, 20, true⟩]).map
      (fun l => l.line_total)) = [200, 24] := by
  rw [C3_invoice_lines (compute_job_totals ⟨100, 19/100⟩ [⟨"2026-01-10", none, none, 2, none⟩]
    [⟨"2026-01-10", none, "materiale", 2, "buc", 10, 20, true⟩] [])
    [⟨"2026-01-10", none, "materiale", 2, "buc", 10, 20, true⟩]
    (by with_unfolding_all exact of_decide_eq_true rfl)]
  with_unfolding_all rfl

/-- Claim C4, counterexample: with a negative rate override
(hours 1, override −10) and one billable expense of 5, the labor total
is −10, no `LABOR` line is emitted, and the sum of the persisted line
totals (5) differs from the subtotal (−5). -/
theorem C4_counterexample :
    ((invoice_lines (compute_job_totals ⟨100, 19/100⟩ [⟨"2026-01-10", none, none, 1, some (-10)⟩]
          [⟨"2026-01-10", none, "mat", 1, "buc", 5, 0, true⟩] [])
        [⟨"2026-01-10", none, "mat", 1, "buc", 5, 0, true⟩]).map (fun l => l.line_total)).sum
      ≠ (compute_job_totals ⟨100, 19/100⟩ [⟨"2026-01-10", none, none, 1, some (-10)⟩]
          [⟨"2026-01-10", none, "mat", 1, "buc", 5, 0, true⟩] []).subtotal := by
  with_unfolding_all exact of_decide_eq_true rfl

/-- Claim C4 (amended): for every generated invoice whose job has a
nonnegative labor total at generation time (always the case unless a
negative `rate_override` was stored), the sum of the persisted invoice
line totals equals the subtotal that `compute_job_totals` produced for
the job at generation time. -/
theorem C4_lines_sum_subtotal (job : Job) (ts : List Timesheet) (ex : List Expense)
    (pays : List Payment) (h : 0 ≤ (compute_job_totals job ts ex pays).labor_total) :
    ((invoice_lines (compute_job_totals job ts ex pays) ex).map (fun l => l.line_total)).sum
      = (compute_job_totals job ts ex pays).subtotal := by
  rw [invoice_lines_sum, compute_subtotal, compute_ebt]
  by_cases hl : 0 < (compute_job_totals job ts ex pays).labor_total
  · rw [if_pos hl]
  · rw [if_neg hl, le_antisymm (not_lt.mp hl) h]

/-- Claim C4, witness: on a job with 2 hours at rate 100 and one
billable expense (qty 2, unit cost 10, markup 20%), the line totals
sum to the subtotal. -/
theorem C4_witness :
    ((invoice_lines (compute_job_totals ⟨100, 19/100⟩ [⟨"2026-01-10", none, none, 2, none⟩]
          [⟨"2026-01-10", none, "mat", 2, "buc", 10, 20, true⟩] [])
        [⟨"2026-01-10", none, "mat", 2, "buc", 10, 20, true⟩]).map (fun l => l.line_total)).sum
      = (compute_job_totals ⟨100, 19/100⟩ [⟨"2026-01-10", none, none, 2, none⟩]
          [⟨"2026-01-10", none, "mat", 2, "buc", 10, 20, true⟩] []).subtotal :=
  C4_lines_sum_subtotal ⟨100, 19/100⟩ [⟨"2026-01-10", none, none, 2, none⟩]
    [⟨"2026-01-10", none, "mat", 2, "buc", 10, 20, true⟩] []
    (by with_unfolding_all exact of_decide_eq_true rfl)

/-- The subtotal recomputed by `invoice_view` is the sum of the
persisted line totals. -/
theorem ivt_subtotal (lines : List InvoiceLine) (r : Rat) (b : Bool) :
    (invoice_view_totals lines r b).subtotal = (lines.map (fun l => l.line_total)).sum := by
  show lines.foldl (fun acc l => acc + l.line_total) 0 = _
  rw [foldl_add_eq (fun l => l.line_total) lines 0, zero_add]

/-- The VAT recomputed by `invoice_view` uses the current flag. -/
theorem ivt_vat (lines : List InvoiceLine) (r : Rat) (b : Bool) :
    (invoice_view_totals lines r b).vat
      = (invoice_view_totals lines r b).subtotal * (if b then r else 0) := rfl

/-- The total recomputed by `invoice_view` is subtotal plus VAT. -/
theorem ivt_total (lines : List InvoiceLine) (r : Rat) (b : Bool) :
    (invoice_view_totals lines r b).total
      = (invoice_view_totals lines r b).subtotal + (invoice_view_totals lines r b).vat := rfl

/-- Claim C7: invalid business input — parsed hours ≤ 0 for a
timesheet, parsed qty ≤ 0 or parsed unit cost < 0 for an expense,
parsed amount ≤ 0 for a payment — is rejected before persistence with
the code's user-visible message, and the stored state is unchanged. -/
theorem C7_validation :
    (∀ (today : String) (f : TimeForm) (st : DBState),
        d (some (f.hours.getD ("0"))) ≤ 0
          → add_time today f st = (st, "Ore invalide. Exemplu: 5,5"))
      ∧ (∀ (today : String) (f : ExpForm) (st : DBState),
          (d (some (f.qty.getD ("1"))) ≤ 0 ∨ d (some (f.unit_cost.getD ("0"))) < 0)
            → add_exp today f st = (st, "Cantitate/cost invalid."))
      ∧ (∀ (today : String) (f : PayForm) (st : DBState),
          d (some (f.amount.getD ("0"))) ≤ 0
            → add_pay today f st = (st, "Suma introdusă nu este validă. Exemplu: 100,50")) := by
  refine ⟨?_, ?_, ?_⟩
  · intro today f st h
    unfold add_time
    rw [if_pos h]
  · intro today f st h
    unfold add_exp
    rw [if_pos h]
  · intro today f st h
    unfold add_pay
    rw [if_pos h]

/-- Claim C7, witness: hours `"-1"`, quantity `"0"` and amount
`"-3,5"` are each rejected on the empty state, which is returned
unchanged with the corresponding message. -/
theorem C7_witness :
    add_time ("2026-01-10") ⟨some ("-1"), none, none, none, none⟩ ⟨[], [], []⟩
        = (⟨[], [], []⟩, "Ore invalide. Exemplu: 5,5")
      ∧ add_exp ("2026-01-10") ⟨none, none, none, some ("0"), none, none, none, none⟩ ⟨[], [], []⟩
        = (⟨[], [], []⟩, "Cantitate/cost invalid.")
      ∧ add_pay ("2026-01-10") ⟨none, some ("-3,5"), none, none⟩ ⟨[], [], []⟩
        = (⟨[], [], []⟩, "Suma introdusă nu este validă. Exemplu: 100,50") :=
  ⟨C7_validation.1 ("2026-01-10") ⟨some ("-1"), none, none, none, none⟩ ⟨[], [], []⟩
      (by with_unfolding_all exact of_decide_eq_true rfl),
   C7_validation.2.1 ("2026-01-10") ⟨none, none, none, some ("0"), none, none, none, none⟩
      ⟨[], [], []⟩ (Or.inl (by with_unfolding_all exact of_decide_eq_true rfl)),
   C7_validation.2.2 ("2026-01-10") ⟨none, some ("-3,5"), none, none⟩ ⟨[], [], []⟩
      (by with_unfolding_all exact of_decide_eq_true rfl)⟩

/-- Claim C8: viewing a stored invoice recomputes the subtotal from
the persisted lines, but recomputes VAT and total from the job's
current `vat_rate` and the company profile's current `vat_payer` flag
(rate zero whenever the flag is false, as saved by `company_save`), so
a later flag change changes the displayed VAT and total of an
already-generated invoice even though its lines are frozen. -/
theorem C8_invoice_view :
    (∀ (lines : List InvoiceLine) (r : Rat) (b : Bool),
        (invoice_view_totals lines r b).subtotal = (lines.map (fun l => l.line_total)).sum)
      ∧ (∀ (lines : List InvoiceLine) (r : Rat),
          (invoice_view_totals lines r true).vat = (invoice_view_totals lines r true).subtotal * r
            ∧ (invoice_view_totals lines r false).vat = 0
            ∧ (invoice_view_totals lines r false).total
              = (invoice_view_totals lines r false).subtotal)
      ∧ (∀ (lines : List InvoiceLine) (r : Rat) (v : Option String),
          (invoice_view_totals lines r (company_save_vat_payer v)).vat
            = (lines.map (fun l => l.line_total)).sum
              * (if company_save_vat_payer v then r else 0))
      ∧ (∀ (lines : List InvoiceLine) (r : Rat),
          (lines.map (fun l => l.line_total)).sum ≠ 0 → r ≠ 0
            → (invoice_view_totals lines r true).total
              ≠ (invoice_view_totals lines r false).total) := by
  refine ⟨ivt_subtotal, ?_, ?_, ?_⟩
  · intro lines r
    refine ⟨?_, ?_, ?_⟩
    · rw [ivt_vat]
      simp
    · rw [ivt_vat]
      simp
    · rw [ivt_total, ivt_vat]
      simp
  · intro lines r v
    rw [ivt_vat, ivt_subtotal]
  · intro lines r h1 h2
    have ht : (invoice_view_totals lines r true).total
        = (lines.map (fun l => l.line_total)).sum
          + (lines.map (fun l => l.line_total)).sum * r := by
      rw [ivt_total, ivt_vat, ivt_subtotal]
      simp
    have hf : (invoice_view_totals lines r false).total
        = (lines.map (fun l => l.line_total)).sum := by
      rw [ivt_total, ivt_vat, ivt_subtotal]
      simp
    rw [ht, hf]
    intro hc
    exact mul_ne_zero h1 h2 (add_right_eq_self.mp hc)

/-- Claim C8, witness: one persisted line of 100 at VAT rate 0.19
displays different totals with the flag on and off. -/
theorem C8_witness :
    (invoice_view_totals [⟨"LABOR", "m", 1, "ore", 100, 100⟩] (19/100) true).total
      ≠ (invoice_view_totals [⟨"LABOR", "m", 1, "ore", 100, 100⟩] (19/100) false).total :=
  C8_invoice_view.2.2.2 [⟨"LABOR", "m", 1, "ore", 100, 100⟩] (19/100)
    (by with_unfolding_all exact of_decide_eq_true rfl)
    (by with_unfolding_all exact of_decide_eq_true rfl)

/-- Claim C9: `add_time` accepts any `rate_override` value without
validation (acceptance depends only on the parsed hours, and the row
is stored with the parsed override, negative included); when the
resulting labor total is negative, invoice generation emits no `LABOR`
line (the guard is `labor_total > 0`), while `compute_job_totals`
still includes the negative labor amount in subtotal, VAT and
total. -/
theorem C9_negative_override :
    (∀ (today : String) (f : TimeForm) (st : DBState),
        0 < d (some (f.hours.getD ("0")))
          → add_time today f st
              = ({ st with timesheets := st.timesheets ++ [timesheetOfForm today f] },
                 "Pontaj adăugat."))
      ∧ (∀ (T : JobTotals) (exps : List Expense), T.labor_total < 0
          → invoice_lines T exps
              = exps.filterMap (fun e => if e.billable then some (expenseLine e) else none)
            ∧ (invoice_lines T exps).filter (fun l => decide (l.line_type = "LABOR")) = [])
      ∧ (∀ (job : Job) (ts : List Timesheet) (ex : List Expense) (pays : List Payment),
          (compute_job_totals job ts ex pays).subtotal
              = (compute_job_totals job ts ex pays).labor_total
                + (compute_job_totals job ts ex pays).exp_billable_total
            ∧ (compute_job_totals job ts ex pays).vat
              = (compute_job_totals job ts ex pays).subtotal * job.vat_rate
            ∧ (compute_job_totals job ts ex pays).total
              = (compute_job_totals job ts ex pays).subtotal
                + (compute_job_totals job ts ex pays).vat) := by
  refine ⟨?_, ?_, fun job ts ex pays => ⟨rfl, rfl, rfl⟩⟩
  · intro today f st h
    unfold add_time
    rw [if_neg (not_le.mpr h)]
  · intro T exps h
    have hnl : ¬ 0 < T.labor_total := not_lt.mpr (le_of_lt h)
    constructor
    · unfold invoice_lines
      rw [if_neg hnl, List.nil_append]
    · unfold invoice_lines
      rw [if_neg hnl, List.nil_append]
      exact expense_lines_no_labor exps

/-- Claim C9, witness: a row with hours 1 and override −10 is
accepted and stored; a totals record with labor total −10 yields only
the expense lines; and the totals identities hold on the job that
produces that negative labor total. -/
theorem C9_witness :
    add_time ("2026-01-10") ⟨some ("1"), some ("-10"), none, none, none⟩ ⟨[], [], []⟩
        = (⟨[timesheetOfForm ("2026-01-10") ⟨some ("1"), some ("-10"), none, none, none⟩], [], []⟩,
           "Pontaj adăugat.")
      ∧ invoice_lines ⟨1, -10, 5, -5, 0, -5, 0, -5⟩
            [⟨"2026-01-10", none, "mat", 1, "buc", 5, 0, true⟩]
          = [⟨"2026-01-10", none, "mat", 1, "buc", 5, 0, true⟩].filterMap
              (fun e => if e.billable then some (expenseLine e) else none)
      ∧ (compute_job_totals ⟨100, 19/100⟩ [⟨"2026-01-10", none, none, 1, some (-10)⟩] [] []).total
          = (compute_job_totals ⟨100, 19/100⟩ [⟨"2026-01-10", none, none, 1, some (-10)⟩]
              [] []).subtotal
            + (compute_job_totals ⟨100, 19/100⟩ [⟨"2026-01-10", none, none, 1, some (-10)⟩]
              [] []).vat :=
  ⟨C9_negative_override.1 ("2026-01-10") ⟨some ("1"), some ("-10"), none, none, none⟩ ⟨[], [], []⟩
      (by with_unfolding_all exact of_decide_eq_true rfl),
   (C9_negative_override.2.1 ⟨1, -10, 5, -5, 0, -5, 0, -5⟩
      [⟨"2026-01-10", none, "mat", 1, "buc", 5, 0, true⟩]
      (by with_unfolding_all exact of_decide_eq_true rfl)).1,
   (C9_negative_override.2.2 ⟨100, 19/100⟩ [⟨"2026-01-10", none, none, 1, some (-10)⟩] [] []).2.2⟩
